import Mathlib

/-!
Verification of the instrument layer of the OpenTelemetry Python SDK metrics
implementation (`opentelemetry-sdk/src/opentelemetry/sdk/_metrics/_internal/instrument.py`).

The embedding models:
* `Measurement` — the SDK value object `Measurement(value, instrument, attributes)`;
* identity validation and construction (`_Synchronous.__init__` / `_Asynchronous.__init__`),
  with the validation predicate `_check_name_and_unit` (defined in the API layer, outside
  this repository's excerpt) modelled from the spec;
* the synchronous recording methods `Counter.add`, `UpDownCounter.add`, `Histogram.record`,
  where delivery to the measurement consumer and logger warnings are made explicit as the
  returned lists of measurements and log entries;
* the asynchronous collection method `_Asynchronous.callback` (the spec's `collect()`),
  a generator that iterates the registered callbacks in order inside a
  `try/except StopIteration/except Exception` block.

A user callback in Python returns an `Iterable[Measurement]`; iterating that iterable
happens inside the `try` block and measurements are yielded as they are produced, so a
callback invocation is modelled as a `CbOutcome`: the finite list of items it produced
before either returning normally or raising, plus the optional terminal error
(`StopIteration` or any other `Exception`). Items produced before a failure have already
been yielded into the output sequence by the time the failure is caught.

Each `collect()` cycle invokes every registered callback exactly once, so a (possibly
stateful) plain callable is modelled extensionally as a function from its invocation
index (= cycle index) to the outcome of that invocation; a generator-style step-producer
is modelled by its list of batches, `next` returning the k-th batch on the k-th
invocation and signalling `StopIteration` on every later one.
-/

/-- Attributes of a measurement: Python `Dict[str, str]`, with `None` allowed
(the default argument of `add`/`record`). -/
abbrev Attrs := Option (List (String × String))

/-- The instrumentation scope is an opaque shared reference; only its identity matters
here, so it is modelled as an opaque token (a string). -/
abbrev InstrumentationScope := String

/-- An item produced by a user callback: the API-level measurement, of which the SDK
reads `.value` and `.attributes` (see the loop body of `_Asynchronous.callback`). -/
structure APIMeasurement where
  value : Int
  attributes : Attrs
deriving Repr, DecidableEq

/-- The SDK `Measurement(value, instrument, attributes)` value object, parametric in the
instrument type since both synchronous and asynchronous instruments construct it with
`instrument=self`. -/
structure Measurement (I : Type) where
  value : Int
  instrument : I
  attributes : Attrs
deriving Repr

/-- A log record emitted through the module logger `_logger`, carrying the level, the
message template and the instrument name interpolated for `%s`. -/
inductive LogEntry where
  | warning (template : String) (instrumentName : String)
  | exception (template : String) (instrumentName : String)
deriving Repr, DecidableEq

/-- Modelled from the spec: the validation pattern for instrument names used by
`_check_name_and_unit` (the helper itself lives in the API package, outside this
repository excerpt). A name must be a non-empty ASCII string of at most 63 characters:
a letter, followed by letters, digits, underscores, dots, dashes and slashes. This is
the character test for the first character. -/
def isNameStartChar (c : Char) : Bool :=
  c.isUpper || c.isLower

/-- Modelled from the spec: test for the characters after the first one in an
instrument name: ASCII alphanumerics plus underscore, dot, dash and slash. -/
def isNameContChar (c : Char) : Bool :=
  c.isUpper || c.isLower || c.isDigit || c = '_' || c = '.' || c = '-' || c = '/'

/-- ASCII test for a character. -/
def isAsciiChar (c : Char) : Bool :=
  c.toNat < 128

/-- Modelled from the spec: name validity — non-empty, ASCII, at most 63 characters,
letter start, continuation characters letters, digits, underscore, dot, dash, slash. -/
def isNameValid (name : String) : Bool :=
  match name.data with
  | [] => false
  | c :: cs =>
      name.length ≤ 63 && name.data.all isAsciiChar &&
        isNameStartChar c && cs.all isNameContChar

/-- Modelled from the spec: unit validity — ASCII, at most 63 characters, possibly
empty. -/
def isUnitValid (unit : String) : Bool :=
  unit.length ≤ 63 && unit.data.all isAsciiChar

/-- Modelled from the spec: `_check_name_and_unit(name, unit)` returns the pair
`(is_name_valid, is_unit_valid)`. -/
def check_name_and_unit (name unit : String) : Bool × Bool :=
  (isNameValid name, isUnitValid unit)

/-- The module constant `_ERROR_MESSAGE.format(x)`: the error message raised at
construction, with the offending string interpolated for the `{}` slot. -/
def errorMessage (offending : String) : String :=
  "Expected ASCII string of maximum length 63 characters but got " ++ offending

/-- Python `str.lower()` restricted to ASCII strings (names are validated to be ASCII
before `lower` is applied, and on ASCII `Char.toLower` agrees with Python). -/
def pyLower (s : String) : String :=
  s.map Char.toLower

/-- The identity state stored by `_Synchronous.__init__`: `name` (lower-cased), `unit`,
`description`, `instrumentation_scope`. The `_measurement_consumer` collaborator is
modelled by making each recording method return the list of measurements it delivers via
`consume_measurement`, so it needs no field here. -/
structure Synchronous where
  name : String
  unit : String
  description : String
  instrumentation_scope : InstrumentationScope
deriving Repr, DecidableEq

/-- `_Synchronous.__init__`: compute both validity checks first, raise
`Exception(_ERROR_MESSAGE.format(name))` if the name is invalid, then
`Exception(_ERROR_MESSAGE.format(unit))` if the unit is invalid, and only then store the
identity fields, with `name.lower()`. A raised exception is the `Except.error` branch
carrying the message; in that case no field has been stored and no instrument exists. -/
def mkSynchronous (name : String) (scope : InstrumentationScope)
    (unit description : String) : Except String Synchronous :=
  match check_name_and_unit name unit with
  | (is_name_valid, is_unit_valid) =>
      if !is_name_valid then Except.error (errorMessage name)
      else if !is_unit_valid then Except.error (errorMessage unit)
      else Except.ok ⟨pyLower name, unit, description, scope⟩

/-- `class Counter(_Synchronous, APICounter)`. -/
abbrev Counter := Synchronous

/-- `class UpDownCounter(_Synchronous, APIUpDownCounter)`. -/
abbrev UpDownCounter := Synchronous

/-- `class Histogram(_Synchronous, APIHistogram)`. -/
abbrev Histogram := Synchronous

/-- `Counter.add`: a negative amount logs one warning naming the instrument and returns
without recording; otherwise exactly one `Measurement(amount, self, attributes)` is
handed to `consume_measurement`. The first component is the list of delivered
measurements, the second the list of emitted log entries. -/
def Counter.add (self : Counter) (amount : Int) (attributes : Attrs) :
    List (Measurement Counter) × List LogEntry :=
  if amount < 0 then
    ([], [LogEntry.warning "Add amount must be non-negative on Counter %s." self.name])
  else
    ([⟨amount, self, attributes⟩], [])

/-- `UpDownCounter.add`: unconditionally delivers one
`Measurement(amount, self, attributes)`. -/
def UpDownCounter.add (self : UpDownCounter) (amount : Int) (attributes : Attrs) :
    List (Measurement UpDownCounter) × List LogEntry :=
  ([⟨amount, self, attributes⟩], [])

/-- `Histogram.record`: same warn-and-drop policy as `Counter.add` for negative
amounts, with its own warning template. -/
def Histogram.record (self : Histogram) (amount : Int) (attributes : Attrs) :
    List (Measurement Histogram) × List LogEntry :=
  if amount < 0 then
    ([], [LogEntry.warning "Record amount must be non-negative on Histogram %s." self.name])
  else
    ([⟨amount, self, attributes⟩], [])

/-- The failure a callback invocation can terminate with: Python `StopIteration`
(the permanent-exhaustion signal, caught by `except StopIteration: pass`) or any other
`Exception` (caught by the broad `except Exception` handler and logged). -/
inductive CbErr where
  | stopIteration
  | otherError (message : String)
deriving Repr, DecidableEq

/-- The observable outcome of one callback invocation during a cycle: the items its
iterable produced before terminating, and the optional failure it terminated with
(`none` = returned/finished normally). The items precede the failure because the SDK
iterates the callback's iterable inside the `try` block and yields each wrapped
measurement as it arrives. -/
structure CbOutcome where
  items : List APIMeasurement
  err : Option CbErr
deriving Repr, DecidableEq

/-- A canonical entry of `self._callbacks` after the wrapping loop in
`_Asynchronous.__init__`: either a plain callable (modelled by what it does on its k-th
invocation) or the `inner` wrapper over a generator-style step-producer, which holds the
producer's batches and steps it once per invocation via `next`. -/
inductive Cb where
  | plain (f : Nat → CbOutcome)
  | gen (batches : List (List APIMeasurement))

/-- Invoking a canonical callback for the k-th time (each `collect()` cycle invokes
every registered callback exactly once, so k is also the cycle index). A plain callable
gives its k-th outcome; `next` on a generator returns the k-th batch while one remains
and raises `StopIteration` on every invocation after exhaustion. -/
def invoke (cb : Cb) (k : Nat) : CbOutcome :=
  match cb with
  | Cb.plain f => f k
  | Cb.gen batches =>
      match batches.get? k with
      | some batch => ⟨batch, none⟩
      | none => ⟨[], some CbErr.stopIteration⟩

/-- A raw callback as passed to `_Asynchronous.__init__`: a plain callable or a
generator instance (`isinstance(callback, Generator)`). -/
inductive RawCallback where
  | callable (f : Nat → CbOutcome)
  | generator (batches : List (List APIMeasurement))

/-- The wrapping step of the registration loop: a generator is wrapped into
`inner(callback=callback): return next(callback)` (the default argument binds the
producer at wrap time); a plain callable is appended as-is. -/
def wrapCallback : RawCallback → Cb
  | RawCallback.callable f => Cb.plain f
  | RawCallback.generator batches => Cb.gen batches

/-- The state stored by `_Asynchronous.__init__`: the identity fields plus the wrapped
callback list `_callbacks` (empty when `callbacks is None`). The list is built once at
construction and never mutated afterwards. -/
structure Asynchronous where
  name : String
  unit : String
  description : String
  instrumentation_scope : InstrumentationScope
  callbacks : List Cb

/-- `_Asynchronous.__init__`: identical validation and identity storage as the
synchronous mixin, then the callback-wrapping loop. -/
def mkAsynchronous (name : String) (scope : InstrumentationScope)
    (rawCallbacks : Option (List RawCallback)) (unit description : String) :
    Except String Asynchronous :=
  match check_name_and_unit name unit with
  | (is_name_valid, is_unit_valid) =>
      if !is_name_valid then Except.error (errorMessage name)
      else if !is_unit_valid then Except.error (errorMessage unit)
      else
        Except.ok ⟨pyLower name, unit, description, scope,
          (rawCallbacks.getD []).map wrapCallback⟩

/-- `class ObservableCounter(_Asynchronous, APIObservableCounter)`. -/
abbrev ObservableCounter := Asynchronous

/-- `class ObservableUpDownCounter(_Asynchronous, APIObservableUpDownCounter)`. -/
abbrev ObservableUpDownCounter := Asynchronous

/-- `class ObservableGauge(_Asynchronous, APIObservableGauge)`. -/
abbrev ObservableGauge := Asynchronous

/-- The loop body `yield Measurement(api_measurement.value, instrument=self,
attributes=api_measurement.attributes)` applied to each item a callback produced. -/
def wrapItems (self : Asynchronous) (items : List APIMeasurement) :
    List (Measurement Asynchronous) :=
  items.map (fun m => ⟨m.value, self, m.attributes⟩)

/-- Whether a failure raised by a callback is caught by one of the two handlers of
`_Asynchronous.callback`: `except StopIteration: pass` catches the exhaustion signal and
the broad `except Exception` catches everything else a callback can raise. -/
def CbErr.caught : CbErr → Bool
  | CbErr.stopIteration => true
  | CbErr.otherError _ => true

/-- Processing of one callback's outcome by the `try/except` block of
`_Asynchronous.callback`: the items already produced have been yielded in all cases;
`StopIteration` is silently absorbed; any other failure emits
`_logger.exception("Callback failed for instrument %s.", self.name)`. -/
def handleOutcome (self : Asynchronous) (o : CbOutcome) :
    List (Measurement Asynchronous) × List LogEntry :=
  match o.err with
  | none => (wrapItems self o.items, [])
  | some CbErr.stopIteration => (wrapItems self o.items, [])
  | some (CbErr.otherError _) =>
      (wrapItems self o.items,
        [LogEntry.exception "Callback failed for instrument %s." self.name])

/-- The `for callback in self._callbacks` loop of `_Asynchronous.callback`, over an
explicit list of callbacks, at cycle k: measurements and log entries accumulate in
registration order. -/
def collectList (self : Asynchronous) (cbs : List Cb) (k : Nat) :
    List (Measurement Asynchronous) × List LogEntry :=
  match cbs with
  | [] => ([], [])
  | cb :: rest =>
      let p := handleOutcome self (invoke cb k)
      let q := collectList self rest k
      (p.1 ++ q.1, p.2 ++ q.2)

/-- `_Asynchronous.callback` (the spec's `collect()`): one collection cycle, producing
the sequence of yielded measurements and the log entries emitted along the way. The
registered callback list is part of the immutable instrument value, so it is unchanged
by collection. -/
def Asynchronous.callback (self : Asynchronous) (k : Nat) :
    List (Measurement Asynchronous) × List LogEntry :=
  collectList self self.callbacks k

/-- The run-time state of one generator-style producer: its remaining behavior is
determined by its batches and its current position. `pos` models how many times `next`
has succeeded on it. -/
structure GenState where
  batches : List (List APIMeasurement)
  pos : Nat
deriving Repr, DecidableEq

/-- Python `next(producer)`: return the current batch and advance the position, or
raise `StopIteration` (leaving the producer exhausted, position unchanged) when no batch
remains. -/
def genNext (g : GenState) : CbOutcome × GenState :=
  match g.batches.get? g.pos with
  | some batch => (⟨batch, none⟩, ⟨g.batches, g.pos + 1⟩)
  | none => (⟨[], some CbErr.stopIteration⟩, g)

/-- The registration loop builds one `inner` wrapper per generator; each wrapper's
default argument binds its own producer at wrap time. Producers are modelled as entries
of a store (the heap) and a wrapper as the store index it captured; invoking wrapper i
steps exactly the producer at index i. An out-of-range index behaves as an exhausted
producer (unreachable for wrappers built by the loop). -/
def invokeWrapper (store : List GenState) (i : Nat) : CbOutcome × List GenState :=
  match store.get? i with
  | some g => ((genNext g).1, store.set i (genNext g).2)
  | none => (⟨[], some CbErr.stopIteration⟩, store)

/-- A concrete instrumentation scope for witnesses. -/
def demoScope : InstrumentationScope := "demo-scope"

/-- A concrete attribute set for witnesses. -/
def demoAttrs : Attrs := some [("key", "value")]

/-- A concrete synchronous instrument for witnesses. -/
def demoSync : Synchronous := ⟨"c", "", "", demoScope⟩

/-- A concrete callback item. -/
def demoItem1 : APIMeasurement := ⟨1, none⟩

/-- Another concrete callback item. -/
def demoItem2 : APIMeasurement := ⟨2, none⟩

/-- A plain callback that returns one item on every invocation. -/
def demoGood1 : Cb := Cb.plain (fun _ => ⟨[demoItem1], none⟩)

/-- A plain callback that raises a non-exhaustion failure on every invocation,
producing no items first. -/
def demoBad : Cb := Cb.plain (fun _ => ⟨[], some (CbErr.otherError "boom")⟩)

/-- A second plain callback that returns one item on every invocation. -/
def demoGood2 : Cb := Cb.plain (fun _ => ⟨[demoItem2], none⟩)

/-- An asynchronous instrument with a failing callback between two healthy ones. -/
def demoAsyncC1 : Asynchronous := ⟨"obs1", "", "", demoScope, [demoGood1, demoBad, demoGood2]⟩

/-- A callback whose iterable yields one item and then raises a non-exhaustion
failure: the lazy-iteration case of a callback failing part-way. -/
def demoPartialCb : Cb := Cb.plain (fun _ => ⟨[demoItem1], some (CbErr.otherError "boom")⟩)

/-- An asynchronous instrument whose only callback yields one item and then fails. -/
def demoAsyncC4 : Asynchronous := ⟨"obs4", "", "", demoScope, [demoPartialCb]⟩

/-- First batch of the demo step-producer. -/
def demoBatchA : List APIMeasurement := [⟨1, none⟩]

/-- Second batch of the demo step-producer. -/
def demoBatchB : List APIMeasurement := [⟨2, none⟩, ⟨3, none⟩]

/-- An asynchronous instrument whose only callback is a two-batch step-producer. -/
def demoAsyncC5 : Asynchronous := ⟨"obs5", "", "", demoScope, [Cb.gen [demoBatchA, demoBatchB]]⟩

/-- A pure plain callback returning two items on every invocation. -/
def demoPlainN : Nat → CbOutcome := fun _ => ⟨[demoItem1, demoItem2], none⟩

/-- An asynchronous instrument with one pure two-item plain callback. -/
def demoAsyncC8 : Asynchronous := ⟨"obs8", "", "", demoScope, [Cb.plain demoPlainN]⟩

/-- A plain callable that raises the `StopIteration` exhaustion signal when invoked. -/
def demoStopF : Nat → CbOutcome := fun _ => ⟨[], some CbErr.stopIteration⟩

/-- An asynchronous instrument with a stop-raising plain callable between two healthy
callbacks. -/
def demoAsyncC10 : Asynchronous :=
  ⟨"obs10", "", "", demoScope, [demoGood1, Cb.plain demoStopF, demoGood2]⟩

/-- A one-batch producer at its initial position. -/
def demoGen0 : GenState := ⟨[[demoItem1]], 0⟩

/-- Another one-batch producer at its initial position. -/
def demoGen1 : GenState := ⟨[[demoItem2]], 0⟩

/-- A store holding two producers registered in the same construction call. -/
def demoStore : List GenState := [demoGen0, demoGen1]

theorem handleOutcome_fst (self : Asynchronous) (o : CbOutcome) :
    (handleOutcome self o).1 = wrapItems self o.items := by
  rcases o with ⟨items, err⟩
  cases err with
  | none => rfl
  | some e => cases e <;> rfl

theorem collectList_cons (self : Asynchronous) (cb : Cb) (rest : List Cb) (k : Nat) :
    collectList self (cb :: rest) k =
      ((handleOutcome self (invoke cb k)).1 ++ (collectList self rest k).1,
       (handleOutcome self (invoke cb k)).2 ++ (collectList self rest k).2) := rfl

theorem collectList_append (self : Asynchronous) (xs ys : List Cb) (k : Nat) :
    collectList self (xs ++ ys) k =
      ((collectList self xs k).1 ++ (collectList self ys k).1,
       (collectList self xs k).2 ++ (collectList self ys k).2) := by
  induction xs with
  | nil => simp [collectList]
  | cons c cs ih => simp [collectList_cons, ih]

theorem collectList_fst_join (self : Asynchronous) (cbs : List Cb) (k : Nat) :
    (collectList self cbs k).1 =
      (cbs.map (fun cb => wrapItems self (invoke cb k).items)).flatten := by
  induction cbs with
  | nil => rfl
  | cons c cs ih => simp [collectList_cons, handleOutcome_fst, ih]

/-- Claim C2: for every negative amount, `Counter.add` and `Histogram.record` deliver
zero Measurements to the consumer, emit exactly one warning identifying the instrument
by name, and return normally (they are total functions whose only effects are the
returned measurement and log lists). -/
theorem c2_negative_amount_warns_and_drops (self : Synchronous) (amount : Int)
    (attrs : Attrs) (h : amount < 0) :
    Counter.add self amount attrs =
      ([], [LogEntry.warning "Add amount must be non-negative on Counter %s." self.name]) ∧
    Histogram.record self amount attrs =
      ([], [LogEntry.warning "Record amount must be non-negative on Histogram %s." self.name]) := by
  constructor <;> simp [Counter.add, Histogram.record, h]

/-- Witness for C2 at a concrete negative amount. -/
theorem c2_negative_amount_warns_and_drops_witness :
    Counter.add demoSync (-1) demoAttrs =
      ([], [LogEntry.warning "Add amount must be non-negative on Counter %s." demoSync.name]) ∧
    Histogram.record demoSync (-1) demoAttrs =
      ([], [LogEntry.warning "Record amount must be non-negative on Histogram %s." demoSync.name]) :=
  c2_negative_amount_warns_and_drops demoSync (-1) demoAttrs (by decide)

/-- Claim C3: every valid synchronous recording call — `Counter.add` or
`Histogram.record` with a non-negative amount, and `UpDownCounter.add` with any
amount — delivers exactly one Measurement carrying the given amount, the instrument
itself and the given attributes; an invalid call delivers zero. -/
theorem c3_valid_call_delivers_one_measurement (self : Synchronous) (amount : Int)
    (attrs : Attrs) :
    (0 ≤ amount →
      Counter.add self amount attrs = ([⟨amount, self, attrs⟩], []) ∧
      Histogram.record self amount attrs = ([⟨amount, self, attrs⟩], [])) ∧
    UpDownCounter.add self amount attrs = ([⟨amount, self, attrs⟩], []) ∧
    (amount < 0 →
      (Counter.add self amount attrs).1 = [] ∧
      (Histogram.record self amount attrs).1 = []) := by
  refine ⟨fun hpos => ?_, rfl, fun hneg => ?_⟩
  · constructor <;> simp [Counter.add, Histogram.record, Int.not_lt.mpr hpos]
  · constructor <;> simp [Counter.add, Histogram.record, hneg]

/-- Witness for C3 at concrete amounts: a non-negative Counter call, a negative
UpDownCounter call, and a negative Counter call. -/
theorem c3_valid_call_delivers_one_measurement_witness :
    Counter.add demoSync 2 demoAttrs = ([⟨2, demoSync, demoAttrs⟩], []) ∧
    UpDownCounter.add demoSync (-5) demoAttrs = ([⟨-5, demoSync, demoAttrs⟩], []) ∧
    (Counter.add demoSync (-1) demoAttrs).1 = [] :=
  ⟨((c3_valid_call_delivers_one_measurement demoSync 2 demoAttrs).1 (by decide)).1,
   (c3_valid_call_delivers_one_measurement demoSync (-5) demoAttrs).2.1,
   ((c3_valid_call_delivers_one_measurement demoSync (-1) demoAttrs).2.2 (by decide)).1⟩

/-- Claim C6: whenever the name or the unit is invalid, construction of any instrument
variant (both the synchronous mixin used by Counter/UpDownCounter/Histogram and the
asynchronous one used by the three observable variants) raises an error whose message
contains the offending string; no instrument value exists, so no identity field has
been stored. -/
theorem c6_invalid_construction_raises (name : String) (scope : InstrumentationScope)
    (rawCallbacks : Option (List RawCallback)) (unit description : String)
    (h : ¬(isNameValid name = true ∧ isUnitValid unit = true)) :
    ∃ offending,
      ((offending = name ∧ isNameValid name = false) ∨
        (offending = unit ∧ isUnitValid unit = false)) ∧
      mkSynchronous name scope unit description = Except.error (errorMessage offending) ∧
      mkAsynchronous name scope rawCallbacks unit description =
        Except.error (errorMessage offending) ∧
      ∃ rest, errorMessage offending =
        "Expected ASCII string of maximum length 63 characters but got " ++
          offending ++ rest := by
  by_cases hn : isNameValid name = true
  · have hu : isUnitValid unit = false := by
      cases hval : isUnitValid unit
      · rfl
      · exact absurd ⟨hn, hval⟩ h
    exact ⟨unit, Or.inr ⟨rfl, hu⟩,
      by simp [mkSynchronous, check_name_and_unit, hn, hu],
      by simp [mkAsynchronous, check_name_and_unit, hn, hu],
      "", by simp [errorMessage]⟩
  · have hn' : isNameValid name = false := by
      cases hval : isNameValid name
      · rfl
      · exact absurd hval hn
    exact ⟨name, Or.inl ⟨rfl, hn'⟩,
      by simp [mkSynchronous, check_name_and_unit, hn'],
      by simp [mkAsynchronous, check_name_and_unit, hn'],
      "", by simp [errorMessage]⟩

/-- Witness for C6 at a concrete invalid name (leading digit). -/
theorem c6_invalid_construction_raises_witness :
    ∃ offending,
      ((offending = "9bad" ∧ isNameValid "9bad" = false) ∨
        (offending = "" ∧ isUnitValid "" = false)) ∧
      mkSynchronous "9bad" demoScope "" "" = Except.error (errorMessage offending) ∧
      mkAsynchronous "9bad" demoScope none "" "" =
        Except.error (errorMessage offending) ∧
      ∃ rest, errorMessage offending =
        "Expected ASCII string of maximum length 63 characters but got " ++
          offending ++ rest :=
  c6_invalid_construction_raises "9bad" demoScope none "" "" (by decide)

/-- Claim C7: for every valid name and valid unit, construction of both instrument
mixins succeeds; the stored name is exactly the lower-cased given name, and the unit,
description and instrumentation scope are stored verbatim (the asynchronous variant
additionally stores the wrapped callback list). -/
theorem c7_valid_construction_stores_identity (name : String)
    (scope : InstrumentationScope) (rawCallbacks : Option (List RawCallback))
    (unit description : String) (hn : isNameValid name = true)
    (hu : isUnitValid unit = true) :
    mkSynchronous name scope unit description =
      Except.ok ⟨pyLower name, unit, description, scope⟩ ∧
    mkAsynchronous name scope rawCallbacks unit description =
      Except.ok ⟨pyLower name, unit, description, scope,
        (rawCallbacks.getD []).map wrapCallback⟩ := by
  constructor
  · simp [mkSynchronous, check_name_and_unit, hn, hu]
  · simp [mkAsynchronous, check_name_and_unit, hn, hu]

/-- Witness for C7 at a concrete mixed-case name and unit. -/
theorem c7_valid_construction_stores_identity_witness :
    mkSynchronous "MyCounter" demoScope "ms" "d" =
      Except.ok ⟨pyLower "MyCounter", "ms", "d", demoScope⟩ ∧
    mkAsynchronous "MyCounter" demoScope none "ms" "d" =
      Except.ok ⟨pyLower "MyCounter", "ms", "d", demoScope,
        (Option.getD none []).map wrapCallback⟩ :=
  c7_valid_construction_stores_identity "MyCounter" demoScope none "ms" "d"
    (by decide) (by decide)

/-- Claim C1: for every asynchronous instrument (all three observable variants share
`_Asynchronous.callback` unchanged) and every callback list, every failure a callback
can raise is caught by one of the two handlers of the `try/except` block, so fully
consuming the sequence returned by `collect()` raises nothing for callback-level
failures — `Asynchronous.callback` is a total function of the outcomes — and a failing
callback does not disturb the contribution of any later-registered sibling: the output
decomposes as the siblings before it, its own already-yielded items, and the siblings
after it, each exactly as they would contribute on their own. -/
theorem c1_collect_isolates_callback_failures (self : Asynchronous)
    (pre post : List Cb) (bad : Cb) (k : Nat) (e : CbErr)
    (hcbs : self.callbacks = pre ++ bad :: post)
    (herr : (invoke bad k).err = some e) :
    CbErr.caught e = true ∧
    (self.callback k).1 =
      (collectList self pre k).1 ++ wrapItems self (invoke bad k).items ++
        (collectList self post k).1 := by
  constructor
  · cases e <;> rfl
  · show (collectList self self.callbacks k).1 = _
    rw [hcbs, collectList_append, collectList_cons]
    simp [handleOutcome_fst]

/-- Witness for C1: a failing callback sits between two healthy ones; both siblings
still contribute their item at cycle 0. -/
theorem c1_collect_isolates_callback_failures_witness :
    CbErr.caught (CbErr.otherError "boom") = true ∧
    (demoAsyncC1.callback 0).1 =
      (collectList demoAsyncC1 [demoGood1] 0).1 ++
        wrapItems demoAsyncC1 (invoke demoBad 0).items ++
        (collectList demoAsyncC1 [demoGood2] 0).1 :=
  c1_collect_isolates_callback_failures demoAsyncC1 [demoGood1] [demoGood2]
    demoBad 0 (CbErr.otherError "boom") rfl rfl

/-- Counterexample to claim C4 as stated: a callback whose iterable yields one item and
then raises a non-exhaustion failure contributes that item — one Measurement, not
zero — to the cycle's output, because `_Asynchronous.callback` yields each wrapped
measurement before the failure is raised and caught. -/
theorem c4_counterexample_partial_items :
    (invoke demoPartialCb 0).err = some (CbErr.otherError "boom") ∧
    (demoAsyncC4.callback 0).1 = [⟨1, demoAsyncC4, none⟩] ∧
    (demoAsyncC4.callback 0).1.length = 1 := by
  refine ⟨rfl, ?_, rfl⟩
  show (collectList demoAsyncC4 demoAsyncC4.callbacks 0).1 = _
  simp [demoAsyncC4, demoPartialCb, collectList, handleOutcome, invoke, wrapItems,
    demoItem1]

/-- Claim C4 (amended): for every callback raising a non-exhaustion failure during a
`collect()` cycle, the failure is logged with the instrument's name, the callback
contributes exactly the Measurements of the items it produced before failing — in
particular zero when the invocation itself raises before yielding anything — it stays
in the registration list (the instrument value, including `callbacks`, is immutable),
and the next cycle invokes it again, its contribution appearing in the same position. -/
theorem c4_failure_logged_and_retried (self : Asynchronous) (pre post : List Cb)
    (cb : Cb) (k : Nat) (msg : String)
    (hcbs : self.callbacks = pre ++ cb :: post)
    (herr : (invoke cb k).err = some (CbErr.otherError msg)) :
    (self.callback k).1 =
      (collectList self pre k).1 ++ wrapItems self (invoke cb k).items ++
        (collectList self post k).1 ∧
    (self.callback k).2 =
      (collectList self pre k).2 ++
        LogEntry.exception "Callback failed for instrument %s." self.name ::
          (collectList self post k).2 ∧
    ((invoke cb k).items = [] →
      (self.callback k).1 = (collectList self pre k).1 ++ (collectList self post k).1) ∧
    (self.callback (k + 1)).1 =
      (collectList self pre (k + 1)).1 ++ wrapItems self (invoke cb (k + 1)).items ++
        (collectList self post (k + 1)).1 := by
  have hfst : ∀ j, (self.callback j).1 =
      (collectList self pre j).1 ++ wrapItems self (invoke cb j).items ++
        (collectList self post j).1 := by
    intro j
    show (collectList self self.callbacks j).1 = _
    rw [hcbs, collectList_append, collectList_cons]
    simp [handleOutcome_fst]
  refine ⟨hfst k, ?_, fun hnil => ?_, hfst (k + 1)⟩
  · show (collectList self self.callbacks k).2 = _
    rw [hcbs, collectList_append, collectList_cons]
    simp [handleOutcome, herr]
  · rw [hfst k, hnil]
    simp [wrapItems]

/-- Witness for the amended C4: the partially-yielding failing callback is the only
registered one; its item appears, the failure is logged with the instrument name, and
cycle 1 invokes it again. -/
theorem c4_failure_logged_and_retried_witness :
    (demoAsyncC4.callback 0).1 =
      (collectList demoAsyncC4 [] 0).1 ++
        wrapItems demoAsyncC4 (invoke demoPartialCb 0).items ++
        (collectList demoAsyncC4 [] 0).1 ∧
    (demoAsyncC4.callback 0).2 =
      (collectList demoAsyncC4 [] 0).2 ++
        LogEntry.exception "Callback failed for instrument %s." demoAsyncC4.name ::
          (collectList demoAsyncC4 [] 0).2 ∧
    ((invoke demoPartialCb 0).items = [] →
      (demoAsyncC4.callback 0).1 =
        (collectList demoAsyncC4 [] 0).1 ++ (collectList demoAsyncC4 [] 0).1) ∧
    (demoAsyncC4.callback 1).1 =
      (collectList demoAsyncC4 [] 1).1 ++
        wrapItems demoAsyncC4 (invoke demoPartialCb 1).items ++
        (collectList demoAsyncC4 [] 1).1 :=
  c4_failure_logged_and_retried demoAsyncC4 [] [] demoPartialCb 0 "boom" rfl rfl

/-- Claim C5: an instrument whose single callback is a step-producer with batches A and
B yields the measurements of A at cycle 0, those of B at cycle 1, and the empty
sequence with no log entry at cycle 2 and at every later cycle: the wrapper is still
invoked each cycle (its exhaustion signal being silently absorbed), it is never removed
from the immutable registration list, and it never resumes producing. -/
theorem c5_step_producer_sequence (self : Asynchronous) (A B : List APIMeasurement)
    (hcbs : self.callbacks = [Cb.gen [A, B]]) :
    self.callback 0 = (wrapItems self A, []) ∧
    self.callback 1 = (wrapItems self B, []) ∧
    ∀ k, 2 ≤ k →
      invoke (Cb.gen [A, B]) k = ⟨[], some CbErr.stopIteration⟩ ∧
      self.callback k = ([], []) := by
  refine ⟨?_, ?_, fun k hk => ?_⟩
  · show collectList self self.callbacks 0 = _
    rw [hcbs]
    simp [collectList, invoke, handleOutcome]
  · show collectList self self.callbacks 1 = _
    rw [hcbs]
    simp [collectList, invoke, handleOutcome]
  · obtain ⟨m, rfl⟩ : ∃ m, k = m + 2 := ⟨k - 2, by omega⟩
    have hnone : ([A, B].get? (m + 2) : Option (List APIMeasurement)) = none := rfl
    constructor
    · simp [invoke, hnone]
    · show collectList self self.callbacks (m + 2) = _
      rw [hcbs]
      simp [collectList, invoke, hnone, handleOutcome, wrapItems]

/-- Witness for C5 at a concrete two-batch producer: cycles 0, 1, 2 and 3. -/
theorem c5_step_producer_sequence_witness :
    demoAsyncC5.callback 0 = (wrapItems demoAsyncC5 demoBatchA, []) ∧
    demoAsyncC5.callback 1 = (wrapItems demoAsyncC5 demoBatchB, []) ∧
    demoAsyncC5.callback 2 = ([], []) ∧
    demoAsyncC5.callback 3 = ([], []) :=
  ⟨(c5_step_producer_sequence demoAsyncC5 demoBatchA demoBatchB rfl).1,
   (c5_step_producer_sequence demoAsyncC5 demoBatchA demoBatchB rfl).2.1,
   ((c5_step_producer_sequence demoAsyncC5 demoBatchA demoBatchB rfl).2.2 2
     (by decide)).2,
   ((c5_step_producer_sequence demoAsyncC5 demoBatchA demoBatchB rfl).2.2 3
     (by decide)).2⟩

/-- Claim C8: the output of one `collect()` cycle is the concatenation, in registration
order, of the Measurements wrapped from each callback's items; in particular an
instrument whose single plain callback returns N items normally yields exactly N
Measurements on that cycle. -/
theorem c8_registration_order_concatenation (self : Asynchronous) (k N : Nat) :
    (self.callback k).1 =
      (self.callbacks.map (fun cb => wrapItems self (invoke cb k).items)).flatten ∧
    ∀ f, self.callbacks = [Cb.plain f] → (f k).err = none → (f k).items.length = N →
      (self.callback k).1.length = N := by
  constructor
  · exact collectList_fst_join self self.callbacks k
  · intro f hcbs _ hN
    show (collectList self self.callbacks k).1.length = N
    rw [hcbs]
    simp [collectList, invoke, handleOutcome_fst, wrapItems, hN]

/-- Witness for C8: a pure two-item plain callback yields two Measurements at cycles 0
and 1 alike. -/
theorem c8_registration_order_concatenation_witness :
    (demoAsyncC8.callback 0).1.length = 2 ∧ (demoAsyncC8.callback 1).1.length = 2 :=
  ⟨(c8_registration_order_concatenation demoAsyncC8 0 2).2 demoPlainN rfl rfl rfl,
   (c8_registration_order_concatenation demoAsyncC8 1 2).2 demoPlainN rfl rfl rfl⟩

/-- Claim C9: each `inner` wrapper built by the registration loop is bound to its own
producer at wrap time (the `callback=callback` default argument), modelled as each
wrapper capturing the store index of its producer: invoking wrapper i returns the next
batch of producer i, advances producer i by exactly one step (its position increments
while batches remain), and leaves every other producer in the store untouched — no two
wrappers alias the same producer through shared loop state. -/
theorem c9_wrappers_bound_at_wrap_time (store : List GenState) (i : Nat)
    (g : GenState) (hget : store.get? i = some g) :
    (invokeWrapper store i).1 = (genNext g).1 ∧
    (invokeWrapper store i).2 = store.set i (genNext g).2 ∧
    (∀ j, j ≠ i → (invokeWrapper store i).2.get? j = store.get? j) ∧
    (invokeWrapper store i).2.get? i = some (genNext g).2 ∧
    (g.pos < g.batches.length → (genNext g).2.pos = g.pos + 1) ∧
    (invokeWrapper store i).2.length = store.length := by
  have hget' : store[i]? = some g := by
    rw [← List.get?_eq_getElem?]
    exact hget
  have hset : (invokeWrapper store i).2 = store.set i (genNext g).2 := by
    simp [invokeWrapper, hget']
  have hlt : i < store.length := by
    rcases List.get?_eq_some.mp hget with ⟨h', _⟩
    exact h'
  refine ⟨by simp [invokeWrapper, hget'], hset, fun j hj => ?_, ?_, fun hp => ?_, ?_⟩
  · rw [hset]
    exact List.get?_set_ne _ _ (Ne.symm hj)
  · rw [hset]
    exact List.get?_set_eq_of_lt _ hlt
  · have hsome : g.batches[g.pos]? = some (g.batches.get ⟨g.pos, hp⟩) := by
      rw [← List.get?_eq_getElem?]
      exact List.get?_eq_get hp
    simp [genNext, hsome]
  · rw [hset]
    simp

/-- Witness for C9: two producers registered in the same call; stepping the first
wrapper yields its batch, advances only producer 0, and producer 1 is unchanged. -/
theorem c9_wrappers_bound_at_wrap_time_witness :
    (invokeWrapper demoStore 0).1 = (genNext demoGen0).1 ∧
    (invokeWrapper demoStore 0).2.get? 1 = demoStore.get? 1 ∧
    (invokeWrapper demoStore 0).2.get? 0 = some (genNext demoGen0).2 ∧
    (genNext demoGen0).2.pos = demoGen0.pos + 1 :=
  ⟨(c9_wrappers_bound_at_wrap_time demoStore 0 demoGen0 rfl).1,
   (c9_wrappers_bound_at_wrap_time demoStore 0 demoGen0 rfl).2.2.1 1 (by decide),
   (c9_wrappers_bound_at_wrap_time demoStore 0 demoGen0 rfl).2.2.2.1,
   (c9_wrappers_bound_at_wrap_time demoStore 0 demoGen0 rfl).2.2.2.2.1 (by decide)⟩

/-- Claim C10 (implicit): a plain (non-generator) callable that raises the
`StopIteration` exhaustion signal when invoked is absorbed by the same
`except StopIteration: pass` handler as a step-producer's exhaustion: zero Measurements
that cycle, no log entry, siblings unaffected, and the callback stays in the immutable
registration list. -/
theorem c10_plain_stop_iteration_absorbed (self : Asynchronous) (pre post : List Cb)
    (f : Nat → CbOutcome) (k : Nat)
    (hcbs : self.callbacks = pre ++ Cb.plain f :: post)
    (hstop : f k = ⟨[], some CbErr.stopIteration⟩) :
    (self.callback k).1 = (collectList self pre k).1 ++ (collectList self post k).1 ∧
    (self.callback k).2 = (collectList self pre k).2 ++ (collectList self post k).2 := by
  constructor
  · show (collectList self self.callbacks k).1 = _
    rw [hcbs, collectList_append, collectList_cons]
    simp [invoke, hstop, handleOutcome, wrapItems]
  · show (collectList self self.callbacks k).2 = _
    rw [hcbs, collectList_append, collectList_cons]
    simp [invoke, hstop, handleOutcome]

/-- Witness for C10: a stop-raising plain callable between two healthy callbacks
contributes nothing and logs nothing at cycle 0. -/
theorem c10_plain_stop_iteration_absorbed_witness :
    (demoAsyncC10.callback 0).1 =
      (collectList demoAsyncC10 [demoGood1] 0).1 ++
        (collectList demoAsyncC10 [demoGood2] 0).1 ∧
    (demoAsyncC10.callback 0).2 =
      (collectList demoAsyncC10 [demoGood1] 0).2 ++
        (collectList demoAsyncC10 [demoGood2] 0).2 :=
  c10_plain_stop_iteration_absorbed demoAsyncC10 [demoGood1] [demoGood2]
    demoStopF 0 rfl rfl
